import Mathlib

/-
Verification of the kosh incremental static-site generator.

This file gives a shallow embedding of the two source files that the
claims concern:

  * `services/post_service.go` (the walked slice `src/unnamed/part_000`):
    the parse-pool worker body of `postServiceImpl.Process` and the
    surrounding build phases (cache probe, oversize skip, raw-markdown
    mirror, draft gate, social-card decision, render decision, metadata
    store, atomic search-ID assignment, cancellation check, cache batch
    staging, main-feed partition, batch commit).
  * `builder/run/incremental.go`: the change classifier of
    `Builder.buildSinglePost`.

External collaborators (the afero filesystems, the bbolt cache, goldmark,
the slog logger, the renderer) are abstracted as per-invocation inputs in
`WorkerEnv`: each field records the value the corresponding external call
returns during this invocation.  Pure control flow is translated
statement by statement; Go line numbers are cited next to each step.
Machine integers (`int64` mtimes, file sizes) are modelled as `Int`/`Nat`;
none of the arithmetic here can overflow in the source (`time.Unix` and
`Size` values).  Go runtime panics (method calls on a nil `os.FileInfo`)
are modelled by returning `none` from `processPost`.
-/

namespace Kosh

/-- The two fields of `os.FileInfo` the worker reads: `ModTime().Unix()`
and `Size()`. -/
structure FileInfo where
  modTimeUnix : Int
  size : Nat
deriving Repr, DecidableEq

/-- Result of an `os.Stat` call on a destination path.  The code
distinguishes a successful stat, an `os.IsNotExist` error, and any other
error. -/
inductive StatRes
  | ok (modTimeUnix : Int)
  | errNotExist
  | errOther
deriving Repr, DecidableEq

/-- The fields of `cache.PostMeta` that the worker's probe and gate read
(part_000 lines 205-231, 269-292). -/
structure PostMeta where
  modTime : Int
  contentHash : String
  bodyHash : String
  link : String
deriving Repr, DecidableEq

/-- The fields of `models.PostMetadata` that the claims touch (part_000
lines 357-362 and the feed partition at 571-604). -/
structure PostMetadata where
  title : String
  link : String
  version : String
  pinned : Bool
  draft : Bool
  tags : List String
deriving Repr, DecidableEq

/-- The Go zero value of `models.PostMetadata` (declared `var post
models.PostMetadata` at part_000 line 244). -/
def zeroPostMetadata : PostMetadata :=
  { title := "", link := "", version := "", pinned := false, draft := false, tags := [] }

/-- One entry of `config.Versions` as read by the feed partition
(part_000 lines 587-594): its `Name` and `IsLatest` flag. -/
structure VersionCfg where
  name : String
  isLatest : Bool
deriving Repr, DecidableEq

/-- The build-level inputs of one `Process` run: the three boolean
arguments of `Process` (part_000 line 74), `cfg.IncludeDrafts`,
`cfg.Features.RawMarkdown`, and whether `s.cache` is non-nil. -/
structure Flags where
  shouldForce : Bool
  forceSocialRebuild : Bool
  outputMissing : Bool
  includeDrafts : Bool
  rawMarkdown : Bool
  cacheEnabled : Bool
deriving Repr, DecidableEq

/-- Everything the external world answers during one parse-pool worker
invocation (part_000 lines 173-551).  Each field is the result of the
corresponding external call, in source order. -/
structure WorkerEnv where
  /-- `s.cache.GetPostByPath(relPath)` (line 206); `none` covers both an
  error and a nil result. -/
  cachedMeta : Option PostMeta
  /-- `s.sourceFs.Stat(path)` (lines 209 and 219); `none` when the stat
  errors, leaving the Go `info` variable nil. -/
  sourceStat : Option FileInfo
  /-- `utils.GetBodyHash(source)` (line 226). -/
  freshBodyHash : String
  /-- `s.cache.GetSocialCardHash(relPath)` (line 237); the Go zero string
  on error. -/
  socialCardHash : String
  /-- whether `s.cache.GetHTMLContent(cachedMeta)` succeeds with non-nil
  bytes (lines 255-257). -/
  htmlLoadOk : Bool
  /-- whether `s.cache.GetSearchRecord(cachedMeta.PostID)` succeeds with a
  non-nil record (lines 259-262). -/
  searchLoadOk : Bool
  /-- `allMetadataMap.Load(cachedMeta.Link)` on the hit path (line 273). -/
  metadataMapHit : Option PostMetadata
  /-- whether `s.md.Renderer().Render` succeeds on the miss path
  (line 318). -/
  renderOk : Bool
  /-- the `models.PostMetadata` assembled from the parsed front matter on
  the miss path (lines 357-362); its `draft` field is
  `utils.GetBool(metaData, "draft")`. -/
  parsedPost : PostMetadata
  /-- `utils.GetFrontmatterHash(metaData)` on the miss path (line 405). -/
  parsedFrontmatterHash : String
  /-- the card-freshness check of lines 418-425: the card file exists in
  `destFs`, is not a directory, and its mtime is after the source mtime. -/
  cardFresh : Bool
  /-- `os.Stat(destPath)` (lines 458 and 465). -/
  destStat : StatRes
  /-- whether `os.Stat(mdDestPath)` reports `IsNotExist` (line 473). -/
  mdDestMissing : Bool
  /-- whether the re-read of the source for the late raw-markdown mirror
  succeeds with non-empty bytes (lines 474-477). -/
  sourceReadNonEmptyOk : Bool
  /-- whether `ctx.Done()` is readable at the select of lines 516-520. -/
  ctxDoneAtCheck : Bool
deriving Repr, DecidableEq

/-- The observable effects of one worker invocation.  Each field records
whether the corresponding side effect happened (queue writes, shared-map
stores, cache staging); `searchId` is the index written into the
preallocated `indexedPosts` slice. -/
structure WorkerOutput where
  skippedOversize : Bool := false
  rawMdEarly : Bool := false
  rawMdLate : Bool := false
  cacheHit : Bool := false
  cardJob : Bool := false
  renderTask : Bool := false
  metaStored : Bool := false
  searchId : Option Nat := none
  batchStaged : Bool := false
deriving Repr, DecidableEq

/-- Modelled from the spec: `utils.MaxFileSize` is not part of the source
slice; section 4.3 step 2 of the spec fixes it at 10 MiB. -/
def MaxFileSize : Nat := 10 * 1024 * 1024

/-- The cache probe, part_000 lines 205-233: the value of `useCache`
right after line 233.  `exists` is set when `GetPostByPath` returns a
candidate; a source mtime strictly greater than the cached `ModTime`
clears it (lines 210-212); a non-empty cached `BodyHash` differing from
the fresh hash clears it (lines 229-231); `shouldForce` demotes the
rest (line 233). -/
def cacheProbe (cacheEnabled shouldForce : Bool) (cachedMeta : Option PostMeta)
    (sourceStat : Option FileInfo) (freshBodyHash : String) : Bool :=
  let cm := if cacheEnabled then cachedMeta else none
  let exists0 : Bool :=
    match cm with
    | some m =>
      match sourceStat with
      | some i => !(decide (i.modTimeUnix > m.modTime))
      | none => true
    | none => false
  let exists1 : Bool :=
    exists0 && !(match cm with
      | some m => m.bodyHash != "" && m.bodyHash != freshBodyHash
      | none => false)
  exists1 && !shouldForce

/-- Claim C1's hit condition, written from the claim's words: the
candidate exists, and whenever the source mtime is strictly greater than
the cached ModTime the fresh BodyHash equals the cached one; a mismatched
body hash is always a miss; force demotes every hit. -/
def claimedCacheHitC1 (shouldForce : Bool) (cachedMeta : Option PostMeta)
    (sourceStat : Option FileInfo) (freshBodyHash : String) : Bool :=
  match cachedMeta with
  | none => false
  | some m =>
    (match sourceStat with
     | some i => !(decide (i.modTimeUnix > m.modTime)) || (m.bodyHash == freshBodyHash)
     | none => true)
    && !(m.bodyHash != freshBodyHash)
    && !shouldForce

/-- The amended C1 hit condition: candidate exists, the source stat (when
available) does not report an mtime strictly greater than the cached
ModTime, the cached BodyHash is empty or equals the fresh one, and force
is not set. -/
def amendedCacheHitC1 (shouldForce : Bool) (cachedMeta : Option PostMeta)
    (sourceStat : Option FileInfo) (freshBodyHash : String) : Bool :=
  match cachedMeta with
  | none => false
  | some m =>
    (match sourceStat with
     | some i => decide (i.modTimeUnix <= m.modTime)
     | none => true)
    && (m.bodyHash == "" || m.bodyHash == freshBodyHash)
    && !shouldForce

/-- Claim C1 (counterexample): a candidate whose cached BodyHash equals
the freshly computed one but whose source mtime is strictly newer than
the cached ModTime is predicted a hit by the claim, yet the probe of
lines 205-233 yields a miss: the mtime comparison clears `exists` and the
matching body hash never resurrects it. -/
theorem c1_probe_counterexample :
    cacheProbe true false (some { modTime := 0, contentHash := "f", bodyHash := "h", link := "" })
      (some { modTimeUnix := 1, size := 5 }) "h" = false ∧
    claimedCacheHitC1 false (some { modTime := 0, contentHash := "f", bodyHash := "h", link := "" })
      (some { modTimeUnix := 1, size := 5 }) "h" = true := by
  constructor
  · rfl
  · rfl

/-- Claim C1 (amended): the probe of part_000 lines 205-233 yields a hit
iff the cache is enabled, the candidate exists, the source stat (when it
succeeds) does not report an mtime strictly greater than the cached
ModTime, the cached BodyHash is empty or equals the fresh BodyHash, and
the force flag is unset.  In particular a strictly newer mtime is always
a miss, even when the body hash matches. -/
theorem c1_probe_amended (cacheEnabled shouldForce : Bool)
    (cachedMeta : Option PostMeta) (sourceStat : Option FileInfo)
    (freshBodyHash : String) :
    cacheProbe cacheEnabled shouldForce cachedMeta sourceStat freshBodyHash =
      (cacheEnabled && amendedCacheHitC1 shouldForce cachedMeta sourceStat freshBodyHash) := by
  cases cacheEnabled with
  | false => simp [cacheProbe]
  | true =>
    cases cachedMeta with
    | none => simp [cacheProbe, amendedCacheHitC1]
    | some m =>
      cases sourceStat with
      | none =>
        simp only [cacheProbe, amendedCacheHitC1, Bool.true_and, Bool.and_assoc]
        cases h : (m.bodyHash == "") with
        | true =>
          have : m.bodyHash = "" := by exact beq_iff_eq.mp h
          simp [bne, h, this]
        | false =>
          simp [bne, h]
      | some i =>
        simp only [cacheProbe, amendedCacheHitC1, Bool.and_assoc]
        by_cases hm : i.modTimeUnix > m.modTime
        · simp [hm, not_le.mpr hm]
        · have hle : i.modTimeUnix <= m.modTime := not_lt.mp hm
          cases h : (m.bodyHash == "") with
          | true =>
            have : m.bodyHash = "" := beq_iff_eq.mp h
            simp [bne, hm, hle, h, this]
          | false =>
            simp [bne, hm, hle, h]

/-- The render decision, part_000 lines 454-468: the value of
`willRender`.  `outputMissing` forces a render; on a cache hit the page
is re-rendered only when `os.Stat(destPath)` reports `IsNotExist`; on a
miss it is re-rendered when the destination stat errs or the destination
mtime is not strictly after the source mtime.  On the miss branch with a
successful destination stat the Go code calls `info.ModTime()`; a nil
`info` (failed source stat) would panic, modelled as `none`. -/
def willRenderDecision (outputMissing useCache : Bool) (destStat : StatRes)
    (sourceStat : Option FileInfo) : Option Bool :=
  if outputMissing then some true
  else if useCache then
    some (match destStat with
      | .errNotExist => true
      | _ => false)
  else
    match destStat with
    | .ok destMt =>
      match sourceStat with
      | some i => some (!(decide (destMt > i.modTimeUnix)))
      | none => none
    | _ => some true

/-- Claim C2's render condition, written from the claim's words: render
iff `outputMissing` is set, or the post was a cache miss, or the
destination file is absent or older than the source. -/
def claimedRenderC2 (outputMissing cacheHit : Bool) (destStat : StatRes)
    (sourceMt : Int) : Bool :=
  outputMissing || !cacheHit ||
    (match destStat with
     | .ok destMt => decide (destMt < sourceMt)
     | _ => true)

/-- The amended C2 render condition: render iff `outputMissing` is set,
or the post hit the cache and the destination file does not exist, or the
post missed the cache and the destination stat fails or its mtime is not
strictly after the source's. -/
def amendedRenderC2 (outputMissing cacheHit : Bool) (destStat : StatRes)
    (sourceMt : Int) : Bool :=
  outputMissing ||
    (cacheHit && (match destStat with
      | .errNotExist => true
      | _ => false)) ||
    (!cacheHit && (match destStat with
      | .ok destMt => decide (destMt <= sourceMt)
      | _ => true))

/-- Claim C2 (counterexample): a cache-miss post whose destination file
exists with an mtime strictly after the source's is not rendered by lines
454-468, although the claim's condition (a miss always renders) holds. -/
theorem c2_render_counterexample :
    willRenderDecision false false (StatRes.ok 10) (some { modTimeUnix := 5, size := 0 }) =
      some false ∧
    claimedRenderC2 false false (StatRes.ok 10) 5 = true := by
  constructor
  · rfl
  · rfl

/-- Claim C2 (amended): when the source stat succeeded, lines 454-468
render the page iff `outputMissing` is set, or the post hit the cache and
the destination does not exist, or the post missed the cache and the
destination stat fails or its mtime is not strictly after the source's.
A hit with a present-but-stale destination and a miss with a
fresher-than-source destination are both kept as-is. -/
theorem c2_render_amended (outputMissing useCache : Bool) (destStat : StatRes)
    (i : FileInfo) :
    willRenderDecision outputMissing useCache destStat (some i) =
      some (amendedRenderC2 outputMissing useCache destStat i.modTimeUnix) := by
  cases outputMissing with
  | true => simp [willRenderDecision, amendedRenderC2]
  | false =>
    cases useCache with
    | true =>
      cases destStat <;> simp [willRenderDecision, amendedRenderC2]
    | false =>
      cases destStat with
      | ok destMt =>
        simp only [willRenderDecision, amendedRenderC2, Bool.false_or, Bool.false_and,
          Bool.not_false, Bool.true_and, if_neg, Bool.false_eq_true, not_false_iff]
        by_cases h : destMt > i.modTimeUnix
        · simp [h, not_le.mpr h]
        · simp [h, not_lt.mp h]
      | errNotExist => simp [willRenderDecision, amendedRenderC2]
      | errOther => simp [willRenderDecision, amendedRenderC2]

/-- The main-feed membership test, part_000 lines 583-594: the final
value of `isLatestOrUnversioned`.  It starts as `p.Version == ""`; when
versions are configured, the loop sets it to true on the first configured
version that is marked latest and carries the post's version name (the
loop can only ever raise the flag, so it is the disjunction). -/
def mainFeedDecision (versions : List VersionCfg) (p : PostMetadata) : Bool :=
  let init := p.version == ""
  if 0 < versions.length then
    init || versions.any (fun v => v.isLatest && p.version == v.name)
  else init

/-- The feed partition of the `allMetadataMap.Range` body, part_000 lines
596-602, over the posts the range visits: feed posts are appended to
`pinnedPosts` when pinned and to `allPosts` otherwise. -/
def computeFeeds (versions : List VersionCfg) (posts : List PostMetadata) :
    List PostMetadata × List PostMetadata :=
  posts.foldl (fun acc p =>
    if mainFeedDecision versions p then
      if p.pinned then (acc.1 ++ [p], acc.2) else (acc.1, acc.2 ++ [p])
    else acc) ([], [])

/-- Claim C3's feed condition, written from the claim's words: in the
main feed iff unversioned when no versions are configured, else iff its
version is the version marked `isLatest`. -/
def claimedFeedC3 (versions : List VersionCfg) (p : PostMetadata) : Bool :=
  if versions.length = 0 then p.version == ""
  else versions.any (fun v => v.isLatest && p.version == v.name)

/-- The amended C3 feed condition: in the main feed iff the post is
unversioned, or some configured version is marked `isLatest` and carries
the post's version name. -/
def amendedFeedC3 (versions : List VersionCfg) (p : PostMetadata) : Bool :=
  p.version == "" || versions.any (fun v => v.isLatest && p.version == v.name)

/-- Claim C3 (counterexample): with versions configured (`v1` marked
latest), an unversioned post still lands in `AllPosts` — the loop of
lines 587-594 only ever raises the flag initialised to
`p.Version == ""` — although the claim predicts it is excluded because
its version is not the one marked `isLatest`. -/
theorem c3_feed_counterexample :
    (computeFeeds [{ name := "v1", isLatest := true }]
      [{ zeroPostMetadata with title := "t", link := "l" }]).2 =
      [{ zeroPostMetadata with title := "t", link := "l" }] ∧
    claimedFeedC3 [{ name := "v1", isLatest := true }]
      { zeroPostMetadata with title := "t", link := "l" } = false := by
  constructor
  · rfl
  · rfl

lemma mainFeedDecision_eq_amended (versions : List VersionCfg) (p : PostMetadata) :
    mainFeedDecision versions p = amendedFeedC3 versions p := by
  cases versions with
  | nil => simp [mainFeedDecision, amendedFeedC3]
  | cons v vs => simp [mainFeedDecision, amendedFeedC3]

lemma computeFeeds_go (versions : List VersionCfg) (posts : List PostMetadata)
    (a b : List PostMetadata) :
    posts.foldl (fun acc p =>
      if mainFeedDecision versions p then
        if p.pinned then (acc.1 ++ [p], acc.2) else (acc.1, acc.2 ++ [p])
      else acc) (a, b) =
    (a ++ posts.filter (fun p => amendedFeedC3 versions p && p.pinned),
     b ++ posts.filter (fun p => amendedFeedC3 versions p && !p.pinned)) := by
  induction posts generalizing a b with
  | nil => simp
  | cons p rest ih =>
    have hm := mainFeedDecision_eq_amended versions p
    cases hf : amendedFeedC3 versions p with
    | false => simp [hm, hf, ih a b, List.filter_cons]
    | true =>
      cases hp : p.pinned with
      | true => simp [hm, hf, hp, ih (a ++ [p]) b, List.filter_cons]
      | false => simp [hm, hf, hp, ih a (b ++ [p]), List.filter_cons]

/-- Claim C3 (amended): the range body of lines 571-604 places a post in
the main feed iff it is unversioned or its version matches a configured
version marked `isLatest`; feed posts go to `PinnedPosts` exactly when
pinned and to `AllPosts` otherwise.  (Unversioned posts are in the feed
even when versions are configured.) -/
theorem c3_feed_amended (versions : List VersionCfg) (posts : List PostMetadata) :
    computeFeeds versions posts =
      (posts.filter (fun p => amendedFeedC3 versions p && p.pinned),
       posts.filter (fun p => amendedFeedC3 versions p && !p.pinned)) := by
  unfold computeFeeds
  rw [computeFeeds_go versions posts [] []]
  simp

/-- The final value of `useCache` after the hit-path loads, part_000
lines 254-264: a probe hit is demoted to a miss when `GetHTMLContent`
errs or returns nil, or when `GetSearchRecord` errs or returns nil. -/
def finalUseCache (fl : Flags) (env : WorkerEnv) : Bool :=
  cacheProbe fl.cacheEnabled fl.shouldForce env.cachedMeta env.sourceStat env.freshBodyHash
    && env.htmlLoadOk && env.searchLoadOk

/-- The value of `cachedHash`, part_000 lines 235-240 (chosen with the
probe result of line 233, before the load demotions of lines 254-264):
`GetSocialCardHash` when the cache is enabled and the probe missed, the
candidate's `ContentHash` when the probe hit, the zero string
otherwise. -/
def resolvedCachedHash (fl : Flags) (env : WorkerEnv) : String :=
  let useCache0 := cacheProbe fl.cacheEnabled fl.shouldForce env.cachedMeta env.sourceStat
    env.freshBodyHash
  if fl.cacheEnabled && !useCache0 then env.socialCardHash
  else if useCache0 then
    match env.cachedMeta with
    | some m => m.contentHash
    | none => ""
  else ""

/-- The `post` value at the draft gate: on a hit it is the
`allMetadataMap` entry for the cached link, or the zero value when the
lookup misses (part_000 lines 244, 273-277); on a miss it is the
metadata assembled from the parsed front matter (lines 357-362). -/
def effectivePost (fl : Flags) (env : WorkerEnv) : PostMetadata :=
  if finalUseCache fl env then env.metadataMapHit.getD zeroPostMetadata
  else env.parsedPost

/-- The `frontmatterHash` value at the card decision: the candidate's
`ContentHash` on a hit (part_000 line 270), the hash of the freshly
parsed front matter on a miss (line 405). -/
def effectiveFrontmatterHash (fl : Flags) (env : WorkerEnv) : String :=
  if finalUseCache fl env then
    match env.cachedMeta with
    | some m => m.contentHash
    | none => ""
  else env.parsedFrontmatterHash

/-- One invocation of the parse-pool worker, part_000 lines 178-551,
with the atomic index counter threaded through explicitly: `ctr` is the
number of increments of `indexedPostIdx` that happened before this
invocation's, so `atomic.AddInt32` (line 511) returns `ctr` and leaves
the counter at `ctr + 1`.  Returns `none` when the Go code would panic
by calling `ModTime()` on a nil `os.FileInfo` (line 465 or line 525). -/
def processPost (fl : Flags) (env : WorkerEnv) (ctr : Nat) :
    Option (WorkerOutput × Nat) :=
  -- lines 218-224: oversize skip (`info != nil && info.Size() > MaxFileSize`)
  if (match env.sourceStat with
      | some i => decide (i.size > MaxFileSize)
      | none => false) then
    some ({ skippedOversize := true }, ctr)
  else
    let useCache := finalUseCache fl env
    let cachedHash := resolvedCachedHash fl env
    -- lines 298-308: raw-markdown mirror, written on the miss branch only
    let rawMdEarly := !useCache && fl.rawMarkdown
    -- lines 318-321: a markdown render failure logs and returns
    if !useCache && !env.renderOk then
      some ({ rawMdEarly := rawMdEarly }, ctr)
    else
      let post := effectivePost fl env
      let fmHash := effectiveFrontmatterHash fl env
      -- lines 408-410: draft gate
      if post.draft && !fl.includeDrafts then
        some ({ rawMdEarly := rawMdEarly, cacheHit := useCache }, ctr)
      else
        -- lines 427-434: social-card submission condition
        let cardJob := fl.forceSocialRebuild || (cachedHash != fmHash || !env.cardFresh)
        -- lines 454-468: render decision
        match willRenderDecision fl.outputMissing useCache env.destStat env.sourceStat with
        | none => none
        | some willRender =>
          -- lines 471-486: late raw-markdown mirror (cached posts too)
          let rawMdLate := fl.rawMarkdown && env.mdDestMissing && env.sourceReadNonEmptyOk
          -- line 508: `allMetadataMap.Store`; lines 511-513: ID assignment
          -- lines 516-520: cancellation check before staging
          if env.ctxDoneAtCheck then
            some ({ rawMdEarly := rawMdEarly, rawMdLate := rawMdLate, cacheHit := useCache,
                    cardJob := cardJob, renderTask := willRender, metaStored := true,
                    searchId := some ctr }, ctr + 1)
          else
            -- lines 522-547: stage PostMeta/SearchRecord/Dependencies on a miss;
            -- line 525 calls `info.ModTime()` (panics when the source stat failed)
            if !useCache && fl.cacheEnabled then
              match env.sourceStat with
              | none => none
              | some _ =>
                some ({ rawMdEarly := rawMdEarly, rawMdLate := rawMdLate,
                        cacheHit := useCache, cardJob := cardJob, renderTask := willRender,
                        metaStored := true, searchId := some ctr, batchStaged := true },
                  ctr + 1)
            else
              some ({ rawMdEarly := rawMdEarly, rawMdLate := rawMdLate, cacheHit := useCache,
                      cardJob := cardJob, renderTask := willRender, metaStored := true,
                      searchId := some ctr }, ctr + 1)

/-- The parse-pool fan-out over the submitted files, part_000 lines
552-567, with the atomic counter serialised: concurrent
`atomic.AddInt32` calls return distinct consecutive values, so any
interleaving assigns the same multiset of IDs as this sequential fold
(the order of `outs` is one serialisation). -/
def processAll (fl : Flags) (envs : List WorkerEnv) (ctr : Nat) :
    Option (List WorkerOutput × Nat) :=
  match envs with
  | [] => some ([], ctr)
  | e :: rest =>
    match processPost fl e ctr with
    | none => none
    | some (o, c1) =>
      match processAll fl rest c1 with
      | none => none
      | some (os, c2) => some (o :: os, c2)

/-- What a whole `Process` run produces, as far as the claims are
concerned: the per-worker outputs and whether `BatchCommit` ran. -/
structure BuildResult where
  outs : List WorkerOutput
  committed : Bool
deriving Repr, DecidableEq

/-- A whole `Process` run: the submit loop of part_000 lines 554-566
submits files until it observes `ctx.Done()` (`cancelAt = some k` means
the loop broke after submitting the first `k` files; `none` means no
cancellation was observed), and the commit step of lines 646-650 calls
`BatchCommit` iff the cache is non-nil and the staging area is
non-empty. -/
def runBuild (fl : Flags) (envs : List WorkerEnv) (cancelAt : Option Nat) :
    Option BuildResult :=
  let submitted := match cancelAt with
    | some k => envs.take k
    | none => envs
  match processAll fl submitted 0 with
  | none => none
  | some (outs, _) =>
    some { outs := outs,
           committed := fl.cacheEnabled && decide (0 < outs.countP (fun o => o.batchStaged)) }

/-- The three outcomes of `Builder.buildSinglePost`
(incremental.go lines 164-191). -/
inductive RebuildAction
  | fullRebuild
  | singlePost
  | noop
deriving Repr, DecidableEq

/-- The cached hashes consulted by the change classifier: the
`ContentHash` (front-matter hash) and `BodyHash` of the cached
`PostMeta` (incremental.go lines 150-157); `none` covers a nil cache
service, a lookup error, and a nil result. -/
structure CachedHashes where
  contentHash : String
  bodyHash : String
deriving Repr, DecidableEq

/-- The change classifier of `Builder.buildSinglePost`, incremental.go
lines 147-191: no cached entry means a full rebuild; a changed
front-matter hash means a full rebuild; `bodyOnlyChanged` (front matter
equal, body hash different) or an empty cached body hash means a
single-post rebuild; otherwise no rebuild. -/
def buildSinglePostAction (cached : Option CachedHashes)
    (newFrontmatterHash newBodyHash : String) : RebuildAction :=
  match cached with
  | none => RebuildAction.fullRebuild
  | some c =>
    let frontmatterChanged := c.contentHash != newFrontmatterHash
    let bodyOnlyChanged := c.contentHash == newFrontmatterHash && c.bodyHash != newBodyHash
    if frontmatterChanged then RebuildAction.fullRebuild
    else if bodyOnlyChanged || c.bodyHash == "" then RebuildAction.singlePost
    else RebuildAction.noop

/-- Claim C5's classifier, written from the claim's words: not present
in cache means a full rebuild, else a changed front-matter hash means a
full rebuild, else a changed body hash means a single-post rebuild, else
no rebuild at all. -/
def claimedClassifierC5 (cached : Option CachedHashes)
    (newFrontmatterHash newBodyHash : String) : RebuildAction :=
  match cached with
  | none => RebuildAction.fullRebuild
  | some c =>
    if c.contentHash != newFrontmatterHash then RebuildAction.fullRebuild
    else if c.bodyHash != newBodyHash then RebuildAction.singlePost
    else RebuildAction.noop

/-- Claim C5: the change classifier of incremental.go lines 145-191
behaves exactly as claimed — no cached entry yields a full rebuild, a
changed front-matter hash yields a full rebuild, a body-only change
yields a single-post rebuild, and no change at all is a no-op.  The
hypothesis records that `utils.GetBodyHash` never returns the empty
string (spec section 4.1: hashes are hex-encoded BLAKE3-256), which
makes the classifier's extra `cachedBodyHash == ""` disjunct
unreachable when both hashes are unchanged. -/
theorem c5_classifier_matches_claim (cached : Option CachedHashes)
    (newFrontmatterHash newBodyHash : String) (h : newBodyHash ≠ "") :
    buildSinglePostAction cached newFrontmatterHash newBodyHash =
      claimedClassifierC5 cached newFrontmatterHash newBodyHash := by
  cases cached with
  | none => rfl
  | some c =>
    simp only [buildSinglePostAction, claimedClassifierC5]
    by_cases h1 : c.contentHash = newFrontmatterHash
    · by_cases h2 : c.bodyHash = newBodyHash
      · simp [h1, h2, h]
      · simp [h1, h2]
    · simp [h1]

/-- C5 witness: the classifier agrees with the claim on a concrete
unchanged post. -/
theorem c5_classifier_witness :
    "b" ≠ "" ∧
    buildSinglePostAction (some { contentHash := "f", bodyHash := "b" }) "f" "b" =
      claimedClassifierC5 (some { contentHash := "f", bodyHash := "b" }) "f" "b" :=
  ⟨by decide, c5_classifier_matches_claim (some { contentHash := "f", bodyHash := "b" })
    "f" "b" (by decide)⟩

lemma processPost_counter (fl : Flags) (env : WorkerEnv) (ctr : Nat)
    (o : WorkerOutput) (c : Nat) (h : processPost fl env ctr = some (o, c)) :
    (o.searchId = none ∧ c = ctr) ∨ (o.searchId = some ctr ∧ c = ctr + 1) := by
  simp only [processPost] at h
  repeat' split at h
  all_goals try (simp only [Option.some.injEq, Prod.mk.injEq] at h; obtain ⟨h1, h2⟩ := h; subst h1; subst h2; simp)
  all_goals exact absurd h (by simp)

lemma processAll_ids (fl : Flags) (envs : List WorkerEnv) :
    ∀ ctr outs c, processAll fl envs ctr = some (outs, c) →
      outs.filterMap (fun o => o.searchId) = List.range' ctr (c - ctr) ∧
      ctr ≤ c ∧ c - ctr ≤ envs.length ∧ outs.length = envs.length ∧
      outs.countP (fun o => o.searchId.isSome) = c - ctr := by
  induction envs with
  | nil =>
    intro ctr outs c h
    simp only [processAll, Option.some.injEq, Prod.mk.injEq] at h
    obtain ⟨h1, h2⟩ := h
    subst h1; subst h2
    simp
  | cons e rest ih =>
    intro ctr outs c h
    simp only [processAll] at h
    cases hp : processPost fl e ctr with
    | none => simp [hp] at h
    | some oc =>
      obtain ⟨o, c1⟩ := oc
      cases ha : processAll fl rest c1 with
      | none => simp [hp, ha] at h
      | some osc =>
        obtain ⟨os, c2⟩ := osc
        simp only [hp, ha, Option.some.injEq, Prod.mk.injEq] at h
        obtain ⟨h1, h2⟩ := h
        subst h1; subst h2
        obtain ⟨hids, hle, hcnt, hlen, hnum⟩ := ih c1 os c2 ha
        rcases processPost_counter fl e ctr o c1 hp with ⟨hid, rfl⟩ | ⟨hid, rfl⟩
        · refine ⟨?_, hle, ?_, by simp [hlen], ?_⟩
          · simp [List.filterMap_cons, hid, hids]
          · simp only [List.length_cons]
            omega
          · simp [List.countP_cons, hid, hnum]
        · have hc : c2 - ctr = (c2 - (ctr + 1)) + 1 := by omega
          refine ⟨?_, by omega, ?_, by simp [hlen], ?_⟩
          · simp only [List.filterMap_cons, hid, hids, hc, List.range'_succ]
          · simp only [List.length_cons]
            omega
          · rw [List.countP_cons_of_pos _ _ (by simp [hid]), hnum, hc]

/-- Claim C6: in any run of the fan-out, the search IDs written into the
preallocated `indexedPosts` slice are unique and dense — an ID `k` is
assigned iff `k < N`, where `N` is the number of worker invocations that
reached the publish step (lines 511-513), and no ID repeats.  (The
atomic counter of lines 145-147 serialises the increments; `processAll`
is one such serialisation, and any other assigns the same set of
IDs.) -/
theorem c6_search_ids_dense (fl : Flags) (envs : List WorkerEnv)
    (outs : List WorkerOutput) (c : Nat)
    (h : processAll fl envs 0 = some (outs, c)) :
    (outs.filterMap (fun o => o.searchId)).Nodup ∧
    (∀ k : Nat, k ∈ outs.filterMap (fun o => o.searchId) ↔
      k < (outs.filterMap (fun o => o.searchId)).length) := by
  obtain ⟨hids, -, -, -, -⟩ := processAll_ids fl envs 0 outs c h
  rw [Nat.sub_zero, ← List.range_eq_range'] at hids
  rw [hids]
  exact ⟨List.nodup_range c, by simp⟩

/-- Claim C9: each worker invocation that reaches the publish step
performs exactly one increment of the shared index (so the final counter
equals the number of `some` search IDs), at most `len(files)` invocations
occur (one output per submitted file), and every index written into the
length-`len(files)` `indexedPosts` slice is strictly below
`len(files)`. -/
theorem c9_index_writes_in_bounds (fl : Flags) (envs : List WorkerEnv)
    (outs : List WorkerOutput) (c : Nat)
    (h : processAll fl envs 0 = some (outs, c)) :
    outs.length = envs.length ∧
    c = outs.countP (fun o => o.searchId.isSome) ∧
    ∀ o, o ∈ outs → ∀ id : Nat, o.searchId = some id → id < envs.length := by
  obtain ⟨hids, -, hcnt, hlen, hnum⟩ := processAll_ids fl envs 0 outs c h
  rw [Nat.sub_zero] at hids hcnt hnum
  refine ⟨hlen, hnum.symm, ?_⟩
  intro o ho id hid
  have hmem : id ∈ outs.filterMap (fun o => o.searchId) :=
    List.mem_filterMap.mpr ⟨o, ho, hid⟩
  rw [hids, ← List.range_eq_range'] at hmem
  exact lt_of_lt_of_le (List.mem_range.mp hmem) hcnt

lemma processPost_ctxDone (fl : Flags) (env : WorkerEnv) (ctr : Nat)
    (oc : WorkerOutput × Nat) (hdone : env.ctxDoneAtCheck = true)
    (h : processPost fl env ctr = some oc) : oc.1.batchStaged = false := by
  simp only [processPost] at h
  repeat' split at h
  all_goals first
    | (simp only [Option.some.injEq] at h; subst h; simp)
    | simp_all

/-- A baseline flag set: no force, no social force, no output-missing,
drafts excluded, rawMarkdown off, cache nil. -/
def flBase : Flags :=
  { shouldForce := false, forceSocialRebuild := false, outputMissing := false,
    includeDrafts := false, rawMarkdown := false, cacheEnabled := false }

/-- The baseline flags with a non-nil cache. -/
def flC4 : Flags := { flBase with cacheEnabled := true }

/-- The baseline flags with the rawMarkdown feature enabled. -/
def flRaw : Flags := { flBase with rawMarkdown := true }

/-- A concrete cache-miss invocation: no cached entry, a small readable
source, a successful markdown render of a non-draft post, no destination
file yet, no cancellation. -/
def envMiss : WorkerEnv :=
  { cachedMeta := none, sourceStat := some { modTimeUnix := 0, size := 5 },
    freshBodyHash := "h", socialCardHash := "", htmlLoadOk := false,
    searchLoadOk := false, metadataMapHit := none, renderOk := true,
    parsedPost := zeroPostMetadata, parsedFrontmatterHash := "f",
    cardFresh := false, destStat := StatRes.errNotExist,
    mdDestMissing := false, sourceReadNonEmptyOk := false, ctxDoneAtCheck := false }

/-- `envMiss` whose parsed front matter marks the post as a draft. -/
def envDraft : WorkerEnv :=
  { envMiss with parsedPost := { zeroPostMetadata with draft := true } }

/-- `envMiss` whose worker observes cancellation at the check of lines
516-520. -/
def envDone : WorkerEnv := { envMiss with ctxDoneAtCheck := true }

/-- A stat result one byte above the 10 MiB limit. -/
def hugeInfo : FileInfo := { modTimeUnix := 0, size := 10485761 }

/-- `envMiss` with an oversize source file. -/
def envHuge : WorkerEnv := { envMiss with sourceStat := some hugeInfo }

/-- The worker output of `envMiss` under `flBase` at counter 0: card job
submitted, render task queued, metadata stored, search ID 0, nothing
staged (cache nil). -/
def outPublish : WorkerOutput :=
  { cardJob := true, renderTask := true, metaStored := true, searchId := some 0 }

/-- The worker output of `envMiss` under `flC4` at counter 0: as
`outPublish` but with the miss staged for the cache batch. -/
def outStage : WorkerOutput :=
  { cardJob := true, renderTask := true, metaStored := true, searchId := some 0,
    batchStaged := true }

/-- The build result of the cancelled `flC4` run over one staged miss. -/
def rC4 : BuildResult := { outs := [outStage], committed := true }

/-- The output pair of `envDone` under `flC4` at counter 0: the worker
reaches the publish step but observes cancellation and stages nothing. -/
def ocDone : WorkerOutput × Nat := (outPublish, 1)

/-- Claim C4 (counterexample): a build whose submit loop observes
cancellation after one of two files (so the run is cancelled partway)
still calls `BatchCommit` — the commit step of lines 646-650 tests only
that the staging area is non-empty, never the context — contradicting
the claim that a cancelled build never commits the cache batch. -/
theorem c4_cancelled_commit_counterexample :
    (1 : Nat) < ([envMiss, envMiss] : List WorkerEnv).length ∧
    (runBuild flC4 [envMiss, envMiss] (some 1)).map BuildResult.committed = some true := by
  constructor
  · decide
  · decide

/-- Claim C4 (amended): a run cancelled after `k` submissions equals the
uncancelled run of the first `k` files; a worker that observes
cancellation at the check of lines 516-520 stages nothing; and
`BatchCommit` runs iff the cache is enabled and at least one cache-miss
post was staged before its worker observed cancellation — so the durable
cache is unchanged only when the staging area is empty. -/
theorem c4_cancelled_commit_amended (fl : Flags) (envs : List WorkerEnv) (k : Nat)
    (r : BuildResult) (h : runBuild fl envs (some k) = some r)
    (e : WorkerEnv) (c : Nat) (oc : WorkerOutput × Nat)
    (hdone : e.ctxDoneAtCheck = true) (hp : processPost fl e c = some oc) :
    runBuild fl (envs.take k) none = some r ∧
    oc.1.batchStaged = false ∧
    r.committed = (fl.cacheEnabled && decide (0 < r.outs.countP (fun o => o.batchStaged))) := by
  refine ⟨?_, processPost_ctxDone fl e c oc hdone hp, ?_⟩
  · simp only [runBuild] at h ⊢
    exact h
  · simp only [runBuild] at h
    cases hq : processAll fl (envs.take k) 0 with
    | none => rw [hq] at h; exact absurd h (by simp)
    | some p =>
      obtain ⟨outs, cf⟩ := p
      rw [hq] at h
      simp only [Option.some.injEq] at h
      subst h
      rfl

/-- Claim C7: when the post seen at the draft gate is a draft and
`includeDrafts` is unset, the worker returns at lines 408-410: no
social-card job, no render task, no `allMetadataMap` store, no search ID
(the counter is untouched), and no record staged for the cache batch. -/
theorem c7_draft_gate_drops_all (fl : Flags) (env : WorkerEnv) (ctr : Nat)
    (o : WorkerOutput) (c : Nat)
    (hdraft : (effectivePost fl env).draft = true)
    (hinc : fl.includeDrafts = false)
    (h : processPost fl env ctr = some (o, c)) :
    o.cardJob = false ∧ o.renderTask = false ∧ o.metaStored = false ∧
    o.searchId = none ∧ o.batchStaged = false ∧ c = ctr := by
  simp only [processPost] at h
  repeat' split at h
  all_goals try (simp only [Option.some.injEq, Prod.mk.injEq] at h; obtain ⟨h1, h2⟩ := h; subst h1; subst h2)
  all_goals simp_all

lemma processPost_oversize (fl : Flags) (env : WorkerEnv) (ctr : Nat) (i : FileInfo)
    (hst : env.sourceStat = some i) (hsz : MaxFileSize < i.size) :
    processPost fl env ctr = some ({ skippedOversize := true }, ctr) := by
  simp [processPost, hst, hsz]

lemma processAll_append (fl : Flags) (xs ys : List WorkerEnv) (ctr : Nat) :
    processAll fl (xs ++ ys) ctr =
      (processAll fl xs ctr).bind (fun p =>
        (processAll fl ys p.2).map (fun q => (p.1 ++ q.1, q.2))) := by
  induction xs generalizing ctr with
  | nil =>
    simp only [List.nil_append, processAll, Option.some_bind]
    cases processAll fl ys ctr with
    | none => rfl
    | some q => simp
  | cons e rest ih =>
    simp only [List.cons_append, processAll, List.append_eq]
    cases hp : processPost fl e ctr with
    | none => rfl
    | some p =>
      obtain ⟨o, c1⟩ := p
      simp only [ih c1, Option.some_bind]
      cases processAll fl rest c1 with
      | none => rfl
      | some q =>
        obtain ⟨os, c2⟩ := q
        simp only [Option.some_bind]
        cases processAll fl ys c2 with
        | none => rfl
        | some q2 => simp

/-- Claim C8: a source file whose stat reports a size above
`MaxFileSize` is skipped entirely — its worker output is the bare skip
record (no render task, no staged cache entry, no search ID, counter
untouched) — and every other post of the build gets exactly the outputs
and search IDs it would get in the build without the oversize file. -/
theorem c8_oversize_skipped_others_normal (fl : Flags) (xs ys : List WorkerEnv)
    (env : WorkerEnv) (i : FileInfo)
    (hst : env.sourceStat = some i) (hsz : MaxFileSize < i.size) (ctr : Nat) :
    processAll fl (xs ++ env :: ys) ctr =
      (processAll fl xs ctr).bind (fun p =>
        (processAll fl ys p.2).map (fun q =>
          (p.1 ++ ({ skippedOversize := true } : WorkerOutput) :: q.1, q.2))) ∧
    processAll fl (xs ++ ys) ctr =
      (processAll fl xs ctr).bind (fun p =>
        (processAll fl ys p.2).map (fun q => (p.1 ++ q.1, q.2))) := by
  refine ⟨?_, processAll_append fl xs ys ctr⟩
  rw [processAll_append fl xs (env :: ys) ctr]
  cases processAll fl xs ctr with
  | none => rfl
  | some p =>
    obtain ⟨os, c1⟩ := p
    simp only [Option.some_bind, processAll, processPost_oversize fl env _ i hst hsz]
    cases processAll fl ys c1 with
    | none => rfl
    | some q => simp

/-- Claim C10: every cache-miss post (that was not skipped as oversize)
with the rawMarkdown feature enabled has its raw source written to the
destination `.md` mirror (lines 298-308) — this happens before the draft
gate of lines 408-410 — and when such a post is additionally a draft with
`includeDrafts` unset it is excluded from every other output: no card
job, no render task, no metadata store, no search ID, no staging. -/
theorem c10_rawmd_mirror_before_draft_gate (fl : Flags) (env : WorkerEnv) (ctr : Nat)
    (o : WorkerOutput) (c : Nat) (h : processPost fl env ctr = some (o, c))
    (hover : o.skippedOversize = false) (hmiss : finalUseCache fl env = false)
    (hraw : fl.rawMarkdown = true) :
    o.rawMdEarly = true ∧
    ((effectivePost fl env).draft = true → fl.includeDrafts = false →
      o.cardJob = false ∧ o.renderTask = false ∧ o.metaStored = false ∧
      o.searchId = none ∧ o.batchStaged = false) := by
  simp only [processPost] at h
  repeat' split at h
  all_goals try (simp only [Option.some.injEq, Prod.mk.injEq] at h; obtain ⟨h1, h2⟩ := h; subst h1; subst h2)
  all_goals refine ⟨?_, fun hdraft hinc => ?_⟩
  all_goals simp_all

/-- C4 witness: the amended statement at the concrete cancelled run of
two miss posts with the loop breaking after one submission. -/
theorem c4_cancelled_commit_witness :
    runBuild flC4 ([envMiss, envMiss].take 1) none = some rC4 ∧
    ocDone.1.batchStaged = false ∧
    rC4.committed = (flC4.cacheEnabled && decide (0 < rC4.outs.countP (fun o => o.batchStaged))) :=
  c4_cancelled_commit_amended flC4 [envMiss, envMiss] 1 rC4 (by decide) envDone 0 ocDone
    rfl (by decide)

/-- The worker outputs of two `envMiss` posts under `flBase`. -/
def outsC6 : List WorkerOutput := [outPublish, { outPublish with searchId := some 1 }]

/-- C6 witness: the dense-ID statement at a concrete two-post run. -/
theorem c6_search_ids_witness :
    (outsC6.filterMap (fun o => o.searchId)).Nodup ∧
    ((0 : Nat) ∈ outsC6.filterMap (fun o => o.searchId) ↔
      0 < (outsC6.filterMap (fun o => o.searchId)).length) :=
  ⟨(c6_search_ids_dense flBase [envMiss, envMiss] outsC6 2 (by decide)).1,
   (c6_search_ids_dense flBase [envMiss, envMiss] outsC6 2 (by decide)).2 0⟩

/-- C7 witness: a concrete draft miss with drafts excluded produces the
all-false output and leaves the counter at 0. -/
theorem c7_draft_gate_witness :
    ({} : WorkerOutput).cardJob = false ∧ ({} : WorkerOutput).renderTask = false ∧
    ({} : WorkerOutput).metaStored = false ∧ ({} : WorkerOutput).searchId = none ∧
    ({} : WorkerOutput).batchStaged = false ∧ (0 : Nat) = 0 :=
  c7_draft_gate_drops_all flBase envDraft 0 {} 0 (by decide) rfl (by decide)

/-- C8 witness: a concrete three-post run whose middle file is one byte
above the limit equals the two-post run with the skip record spliced
in. -/
theorem c8_oversize_witness :
    MaxFileSize < hugeInfo.size ∧
    processAll flBase [envMiss, envHuge, envMiss] 0 =
      (processAll flBase [envMiss] 0).bind (fun p =>
        (processAll flBase [envMiss] p.2).map (fun q =>
          (p.1 ++ ({ skippedOversize := true } : WorkerOutput) :: q.1, q.2))) :=
  ⟨by decide,
   (c8_oversize_skipped_others_normal flBase [envMiss] [envMiss] envHuge hugeInfo rfl
     (by decide) 0).1⟩

/-- C9 witness: the bounds statement at a concrete one-post run. -/
theorem c9_index_writes_witness :
    ([outPublish].length = ([envMiss] : List WorkerEnv).length) ∧
    ((1 : Nat) = [outPublish].countP (fun o => o.searchId.isSome)) ∧
    ((0 : Nat) < ([envMiss] : List WorkerEnv).length) :=
  ⟨(c9_index_writes_in_bounds flBase [envMiss] [outPublish] 1 (by decide)).1,
   (c9_index_writes_in_bounds flBase [envMiss] [outPublish] 1 (by decide)).2.1,
   (c9_index_writes_in_bounds flBase [envMiss] [outPublish] 1 (by decide)).2.2 outPublish
     (by simp) 0 rfl⟩

/-- The worker output of a draft miss under `flRaw`: only the raw
markdown mirror is written. -/
def oDraftRaw : WorkerOutput := { rawMdEarly := true }

/-- C10 witness: a concrete draft post on a cache miss with rawMarkdown
enabled and drafts excluded gets its raw source mirrored while every
other output is suppressed. -/
theorem c10_rawmd_witness :
    oDraftRaw.rawMdEarly = true ∧
    ((effectivePost flRaw envDraft).draft = true → flRaw.includeDrafts = false →
      oDraftRaw.cardJob = false ∧ oDraftRaw.renderTask = false ∧
      oDraftRaw.metaStored = false ∧ oDraftRaw.searchId = none ∧
      oDraftRaw.batchStaged = false) :=
  c10_rawmd_mirror_before_draft_gate flRaw envDraft 0 oDraftRaw 0 (by decide) rfl
    (by decide) rfl

end Kosh
